import Mathlib

/-!
# Verification of SubstratumNode ProxyClient / Neighborhood / Accountant claims

Shallow embedding of the relevant parts of the SubstratumNode repository:

* `src/node/src/proxy_client/proxy_client.rs` — the ProxyClient actor's
  handlers for `ExpiredCoresPackage` and `InboundServerData`;
* `src/node/src/sub_lib/proxy_client.rs` — payload types and exit rates;
* `src/node/src/sub_lib/neighborhood.rs` — `NeighborhoodConfig::is_decentralized`;
* `src/node/src/accountant/receivable_dao.rs` — `ReceivableDaoReal`;
* `src/multinode_integration_tests/src/gossip_builder.rs` — `GossipBuilder::build`.

Machine-level Rust types are embedded as follows: byte strings become
`List Nat`, `u64`/`usize` become `Nat` (with explicit `% 2 ^ 64` style
side-conditions where wrapping matters), `i64` becomes `Int` with the
`u64 → i64` cast made explicit. Actor sends (`try_send`) are modelled by
collecting the sent messages in output lists; the handlers are total Lean
functions, so a run of a handler that produces its outputs cannot panic.
-/

namespace Substratum

/-- Rust log levels used by `Logger` in the paths under study. -/
inductive LogLevel where
  | debug
  | info
  | error
deriving DecidableEq, Repr

/-- A log line: level plus the fully formatted message string. -/
abbrev LogLine := LogLevel × String

/-- `PublicKey` — opaque byte string (`src/node/src/sub_lib/cryptde.rs`). -/
abbrev PublicKey := List Nat

/-- `CryptData` — opaque ciphertext bytes. -/
abbrev CryptData := List Nat

/-- `Route` (`src/node/src/sub_lib/route.rs`): ordered list of encrypted hops. -/
structure Route where
  hops : List CryptData
deriving DecidableEq, Repr

/-- `Wallet` (`src/node/src/sub_lib/wallet.rs`): a string account address. -/
structure Wallet where
  address : String
deriving DecidableEq, Repr

/-- `StreamKey` — stable stream identifier bytes. -/
abbrev StreamKey := List Nat

/-- `SequencedPacket` (`src/node/src/sub_lib/sequence_buffer.rs`). -/
structure SequencedPacket where
  data : List Nat
  sequence_number : Nat
  last_data : Bool
deriving DecidableEq, Repr

/-- `ProxyProtocol` (`src/node/src/sub_lib/proxy_server.rs`). -/
inductive ProxyProtocol where
  | http
  | tls
deriving DecidableEq, Repr

/-- `ClientRequestPayload` (`src/node/src/sub_lib/proxy_server.rs`). -/
structure ClientRequestPayload where
  stream_key : StreamKey
  sequenced_packet : SequencedPacket
  target_hostname : Option String
  target_port : Nat
  protocol : ProxyProtocol
  originator_public_key : PublicKey
deriving DecidableEq, Repr

/-- `ClientResponsePayload` (`src/node/src/sub_lib/proxy_client.rs`). -/
structure ClientResponsePayload where
  stream_key : StreamKey
  sequenced_packet : SequencedPacket
deriving DecidableEq, Repr

/-- `TEMPORARY_PER_EXIT_BYTE_RATE` (`src/node/src/sub_lib/proxy_client.rs`). -/
def TEMPORARY_PER_EXIT_BYTE_RATE : Nat := 2

/-- `TEMPORARY_PER_EXIT_RATE` (`src/node/src/sub_lib/proxy_client.rs`). -/
def TEMPORARY_PER_EXIT_RATE : Nat := 1

/-- `InboundServerData` (`src/node/src/sub_lib/proxy_client.rs`); the
`SocketAddr` source is embedded as its display string. -/
structure InboundServerData where
  stream_key : StreamKey
  last_data : Bool
  sequence_number : Nat
  source : String
  data : List Nat
deriving DecidableEq, Repr

/-- `ReportExitServiceProvidedMessage` (`src/node/src/sub_lib/accountant.rs`,
fields as constructed in `proxy_client.rs`). -/
structure ReportExitServiceProvidedMessage where
  consuming_wallet : Wallet
  payload_size : Nat
  service_rate : Nat
  byte_rate : Nat
deriving DecidableEq, Repr

/-- `StreamContext` (`src/node/src/proxy_client/proxy_client.rs`). -/
structure StreamContext where
  return_route : Route
  payload_destination_key : PublicKey
  consuming_wallet : Option Wallet
deriving DecidableEq, Repr

/-- `ExpiredCoresPackage` as the `ExpiredCoresPackage` handler consumes it:
`payload` is the result of `msg.payload::<ClientRequestPayload>(cryptde)`
(decryption plus deserialization, performed by code outside `proxy_client.rs`),
and `payload_data` is the raw ciphertext bytes shown in the error log. -/
structure ExpiredCoresPackage where
  consuming_wallet : Option Wallet
  remaining_route : Route
  payload : Except String ClientRequestPayload
  payload_data : List Nat
deriving Repr

/-- The ProxyClient `stream_contexts` map, embedded extensionally. -/
abbrev StreamContexts := StreamKey → Option StreamContext

/-- `HashMap::insert` on the embedded map. -/
def StreamContexts.insert (m : StreamContexts) (k : StreamKey)
    (v : StreamContext) : StreamContexts :=
  fun k' => if k' = k then some v else m k'

/-- `HashMap::remove` on the embedded map. -/
def StreamContexts.remove (m : StreamContexts) (k : StreamKey) :
    StreamContexts :=
  fun k' => if k' = k then none else m k'

/-- The empty `stream_contexts` map. -/
def StreamContexts.empty : StreamContexts := fun _ => none

/-- Modelled from the spec: `IncipientCoresPackage` is missing from `src/`
(`src/node/src/sub_lib/hopper.rs` is not provided); per the spec it is the
plaintext triple (route, payload, destination_key) prepared for encryption. -/
structure IncipientCoresPackage where
  route : Route
  payload : ClientResponsePayload
  destination_key : PublicKey
deriving DecidableEq, Repr

/-- Modelled from the spec: `IncipientCoresPackage::new` is missing from
`src/`; per the spec it can fail with errors `{EmptyKey, SerializationFailure,
EncryptionFailure}`, and the repository's own test
`error_creating_incipient_cores_package_is_logged_and_dropped` shows that an
empty destination key yields the error "Could not encrypt payload: EmptyKey".
The embedding keeps the payload in plaintext and fails exactly on an empty
destination key. -/
def IncipientCoresPackage.new (route : Route) (payload : ClientResponsePayload)
    (destination_key : PublicKey) : Except String IncipientCoresPackage :=
  if destination_key.isEmpty then
    Except.error "Could not encrypt payload: EmptyKey"
  else
    Except.ok ⟨route, payload, destination_key⟩

/-- Rust `{:?}` rendering of a byte slice, used by the "interpreting payload"
error log. -/
def rustDebugBytes (bs : List Nat) : String :=
  "[" ++ String.intercalate ", " (bs.map toString) ++ "]"

/-- The formatted message of
`format!("Error ('{}') interpreting payload for transmission: {:?}", e, data)`. -/
def errorInterpretingMsg (e : String) (data : List Nat) : String :=
  "Error ('" ++ e ++ "') interpreting payload for transmission: "
    ++ rustDebugBytes data

/-- The formatted message of `format!("Received unsolicited {}-byte response
from {}, seq {}: ignoring", len, source, seq)`. -/
def unsolicitedMsg (len : Nat) (source : String) (seq : Nat) : String :=
  "Received unsolicited " ++ toString len ++ "-byte response from "
    ++ source ++ ", seq " ++ toString seq ++ ": ignoring"

/-- The formatted message of `format!("Could not create CORES package for
{}-byte response from {}, seq {}: {} - ignoring", len, source, seq, err)`. -/
def couldNotCreateMsg (len : Nat) (source : String) (seq : Nat)
    (err : String) : String :=
  "Could not create CORES package for " ++ toString len
    ++ "-byte response from " ++ source ++ ", seq " ++ toString seq ++ ": "
    ++ err ++ " - ignoring"

/-- The formatted message of `format!("Relayed {}-byte response without
consuming wallet for free", len)`. -/
def relayedFreeMsg (len : Nat) : String :=
  "Relayed " ++ toString len
    ++ "-byte response without consuming wallet for free"

/-- Observable effects of one ProxyClient handler run: log lines written, plus
the messages sent to Hopper, to Accountant, and to
`StreamHandlerPool::process_package`, each in send order. -/
structure ProxyClientOutput where
  logs : List LogLine
  hopper : List IncipientCoresPackage
  accountant : List ReportExitServiceProvidedMessage
  process_package : List (ClientRequestPayload × Option Wallet)
deriving DecidableEq, Repr

/-- The empty output. -/
def ProxyClientOutput.none : ProxyClientOutput := ⟨[], [], [], []⟩

/-- `ProxyClient::send_response_to_hopper`
(`src/node/src/proxy_client/proxy_client.rs` lines 171–205): builds the
`ClientResponsePayload`, attempts `IncipientCoresPackage::new`; on failure
logs the "Could not create CORES package" ERROR and returns `Err`; on success
the package is sent to Hopper (returned here for the caller to record). -/
def send_response_to_hopper (stream_context : StreamContext)
    (msg : InboundServerData) : Except LogLine IncipientCoresPackage :=
  let payload : ClientResponsePayload :=
    { stream_key := msg.stream_key
      sequenced_packet :=
        { data := msg.data
          sequence_number := msg.sequence_number
          last_data := msg.last_data } }
  match IncipientCoresPackage.new stream_context.return_route payload
      stream_context.payload_destination_key with
  | Except.ok icp => Except.ok icp
  | Except.error err =>
      Except.error (LogLevel.error,
        couldNotCreateMsg msg.data.length msg.source msg.sequence_number err)

/-- `ProxyClient::report_response_exit_to_accountant`
(`src/node/src/proxy_client/proxy_client.rs` lines 207–230): with a consuming
wallet, sends one `ReportExitServiceProvidedMessage`; without one, writes the
DEBUG "Relayed ... for free" line. Returns (logs, accountant sends). -/
def report_response_exit_to_accountant (stream_context : StreamContext)
    (msg_data_len : Nat) :
    List LogLine × List ReportExitServiceProvidedMessage :=
  match stream_context.consuming_wallet with
  | some consuming_wallet =>
      ([], [{ consuming_wallet := consuming_wallet
              payload_size := msg_data_len
              service_rate := TEMPORARY_PER_EXIT_RATE
              byte_rate := TEMPORARY_PER_EXIT_BYTE_RATE }])
  | Option.none => ([(LogLevel.debug, relayedFreeMsg msg_data_len)], [])

/-- `Handler<InboundServerData> for ProxyClient`
(`src/node/src/proxy_client/proxy_client.rs` lines 115–143): look up the
stream context (absent → unsolicited ERROR and drop); send the response to
Hopper (failure → drop); report to Accountant; remove the context iff
`last_data`. -/
def handleInboundServerData (stream_contexts : StreamContexts)
    (msg : InboundServerData) : StreamContexts × ProxyClientOutput :=
  match stream_contexts msg.stream_key with
  | Option.none =>
      (stream_contexts,
        { ProxyClientOutput.none with
          logs := [(LogLevel.error,
            unsolicitedMsg msg.data.length msg.source msg.sequence_number)] })
  | some stream_context =>
      match send_response_to_hopper stream_context msg with
      | Except.error logLine =>
          (stream_contexts, { ProxyClientOutput.none with logs := [logLine] })
      | Except.ok icp =>
          let (accLogs, accMsgs) :=
            report_response_exit_to_accountant stream_context msg.data.length
          let stream_contexts' :=
            if msg.last_data then stream_contexts.remove msg.stream_key
            else stream_contexts
          (stream_contexts',
            { logs := accLogs
              hopper := [icp]
              accountant := accMsgs
              process_package := [] })

/-- `Handler<ExpiredCoresPackage> for ProxyClient`
(`src/node/src/proxy_client/proxy_client.rs` lines 84–113): on payload decode
failure, log the "Error ('...') interpreting payload" ERROR and return;
otherwise insert the latest `StreamContext` under the payload's stream key and
call `StreamHandlerPool::process_package(payload, consuming_wallet)`. -/
def handleExpiredCoresPackage (stream_contexts : StreamContexts)
    (msg : ExpiredCoresPackage) : StreamContexts × ProxyClientOutput :=
  match msg.payload with
  | Except.error e =>
      (stream_contexts,
        { ProxyClientOutput.none with
          logs := [(LogLevel.error, errorInterpretingMsg e msg.payload_data)] })
  | Except.ok payload =>
      let latest_stream_context : StreamContext :=
        { return_route := msg.remaining_route
          payload_destination_key := payload.originator_public_key
          consuming_wallet := msg.consuming_wallet }
      (stream_contexts.insert payload.stream_key latest_stream_context,
        { ProxyClientOutput.none with
          logs := [(LogLevel.debug, "ExpiredCoresPackage handled")]
          process_package := [(payload, msg.consuming_wallet)] })

/-- Processing a sequence of `ExpiredCoresPackage`s in order, accumulating the
`process_package` calls made along the way. -/
def processExpiredSequence (stream_contexts : StreamContexts)
    (msgs : List ExpiredCoresPackage) :
    StreamContexts × List (ClientRequestPayload × Option Wallet) :=
  match msgs with
  | [] => (stream_contexts, [])
  | msg :: rest =>
      let (s', out) := handleExpiredCoresPackage stream_contexts msg
      let (s'', calls) := processExpiredSequence s' rest
      (s'', out.process_package ++ calls)

/-! ## Neighborhood configuration (`src/node/src/sub_lib/neighborhood.rs`) -/

/-- `std::net::IpAddr`: a V4 address is four octets, a V6 address is eight
16-bit segments. -/
inductive IpAddr where
  | v4 (a b c d : Nat)
  | v6 (segments : List Nat)
deriving DecidableEq, Repr

/-- `SENTINEL_IP_OCTETS` (`src/node/src/sub_lib/neighborhood.rs` line 17). -/
def SENTINEL_IP_OCTETS : List Nat := [255, 255, 255, 255]

/-- `sentinel_ip_addr` (`src/node/src/sub_lib/neighborhood.rs` lines 19–26). -/
def sentinel_ip_addr : IpAddr :=
  IpAddr.v4 (SENTINEL_IP_OCTETS.getD 0 0) (SENTINEL_IP_OCTETS.getD 1 0)
    (SENTINEL_IP_OCTETS.getD 2 0) (SENTINEL_IP_OCTETS.getD 3 0)

/-- `NodeAddr` (`src/node/src/sub_lib/node_addr.rs`): IP plus port list. -/
structure NodeAddr where
  ip_addr : IpAddr
  ports : List Nat
deriving DecidableEq, Repr

/-- `NeighborhoodConfig` (`src/node/src/sub_lib/neighborhood.rs` lines 29–36). -/
structure NeighborhoodConfig where
  neighbor_configs : List (PublicKey × NodeAddr)
  is_bootstrap_node : Bool
  local_ip_addr : IpAddr
  clandestine_port_list : List Nat
  earning_wallet : Wallet
  consuming_wallet : Option Wallet
deriving Repr

/-- `NeighborhoodConfig::is_decentralized`
(`src/node/src/sub_lib/neighborhood.rs` lines 39–43). -/
def NeighborhoodConfig.is_decentralized (c : NeighborhoodConfig) : Bool :=
  !c.neighbor_configs.isEmpty
    && decide (c.local_ip_addr ≠ sentinel_ip_addr)
    && !c.clandestine_port_list.isEmpty

/-! ## Receivable DAO (`src/node/src/accountant/receivable_dao.rs`)

The SQLite connection is not part of `src/`; the `receivable` table is
embedded as a partial map from wallet address to (balance, timestamp) rows,
and SQL execution errors are injected through explicit error fields so that
the panic path of `more_money_receivable` is representable. The SQL
statements themselves (`update receivable set balance = balance + ? ...`,
`insert into receivable ... values (?, ?, ?)`) are given their standard
semantics on that map. -/

/-- `ReceivableAccount` (`src/node/src/accountant/receivable_dao.rs` lines
10–15); `SystemTime` is embedded as an integer `time_t`. -/
structure ReceivableAccount where
  wallet_address : Wallet
  balance : Int
  last_received_timestamp : Int
deriving DecidableEq, Repr

/-- The `receivable` table plus injected SQL error outcomes for the two
statements `more_money_receivable` executes. `rows` maps a wallet address to
its `(balance, last_received_timestamp)` row. -/
structure ReceivableDb where
  rows : String → Option (Int × Int)
  update_error : Option String
  insert_error : Option String

/-- Rust's `amount as i64` cast of a `u64` value (two's-complement
reinterpretation). -/
def i64_of_u64 (a : Nat) : Int :=
  if a < 2 ^ 63 then (a : Int) else (a : Int) - 2 ^ 64

/-- `ReceivableDaoReal::try_update`
(`src/node/src/accountant/receivable_dao.rs` lines 76–87): add
`amount as i64` to the row's balance; `Ok(false)` when no row matched. -/
def try_update (db : ReceivableDb) (wallet_address : Wallet) (amount : Nat) :
    Except String (Bool × ReceivableDb) :=
  match db.update_error with
  | some e => Except.error e
  | Option.none =>
      match db.rows wallet_address.address with
      | Option.none => Except.ok (false, db)
      | some (balance, timestamp) =>
          Except.ok (true,
            { db with rows := fun a =>
                if a = wallet_address.address then
                  some (balance + i64_of_u64 amount, timestamp)
                else db.rows a })

/-- `ReceivableDaoReal::try_insert`
(`src/node/src/accountant/receivable_dao.rs` lines 89–101): insert a fresh
row with balance `amount as i64` and the current time; `now` stands for
`dao_utils::to_time_t(&SystemTime::now())`. -/
def try_insert (db : ReceivableDb) (wallet_address : Wallet) (amount : Nat)
    (now : Int) : Except String ReceivableDb :=
  match db.insert_error with
  | some e => Except.error e
  | Option.none =>
      Except.ok
        { db with rows := fun a =>
            if a = wallet_address.address then some (i64_of_u64 amount, now)
            else db.rows a }

/-- `ReceivableDaoReal::more_money_receivable`
(`src/node/src/accountant/receivable_dao.rs` lines 31–40): try the update,
fall back to insert, and panic "Database is corrupt: {e}" on any SQL error.
The panic is embedded as the `Except.error` carrying the panic message. -/
def more_money_receivable (db : ReceivableDb) (wallet_address : Wallet)
    (amount : Nat) (now : Int) : Except String ReceivableDb :=
  match try_update db wallet_address amount with
  | Except.ok (true, db') => Except.ok db'
  | Except.ok (false, db') =>
      match try_insert db' wallet_address amount now with
      | Except.ok db'' => Except.ok db''
      | Except.error e => Except.error ("Database is corrupt: " ++ e)
  | Except.error e => Except.error ("Database is corrupt: " ++ e)

/-- `ReceivableDaoReal::account_status`
(`src/node/src/accountant/receivable_dao.rs` lines 46–68) on a well-formed
row store: `None` when no row exists, otherwise the row's account view. -/
def account_status (db : ReceivableDb) (wallet_address : Wallet) :
    Option ReceivableAccount :=
  match db.rows wallet_address.address with
  | Option.none => Option.none
  | some (balance, timestamp) =>
      some { wallet_address := wallet_address
             balance := balance
             last_received_timestamp := timestamp }

/-! ## GossipBuilder (`src/multinode_integration_tests/src/gossip_builder.rs`)

`NodeRecordInner`, `NodeSignatures`, `Gossip` and `CryptDENull` live in
`node_lib`, whose sources are not under `src/`; they are modelled from the
spec (§3): `NodeSignatures` = {complete: sig over the inner with node_addr
included; obscured: sig over the inner with node_addr_opt forced to None},
and signatures cover the canonical encoding of `NodeRecordInner`. The null
CryptDE's `sign` is embedded as the injective pairing of the signing key with
the signed inner, and `verify` as recomputing both signatures from the
record's own public key. -/

/-- `NodeRecordInner` — modelled from the spec: the signable body
{public_key, node_addr_opt, is_bootstrap_node, earning_wallet,
consuming_wallet, neighbors, version}. -/
structure NodeRecordInner where
  public_key : PublicKey
  node_addr_opt : Option NodeAddr
  is_bootstrap_node : Bool
  earning_wallet : Wallet
  consuming_wallet : Option Wallet
  neighbors : List PublicKey
  version : Nat
deriving DecidableEq, Repr

/-- Modelled from the spec: a signature produced by `CryptDENull::from(key)`
over the canonical encoding of an inner record — embedded as the pair of the
key and the signed inner (deterministic and injective in the signed bytes,
as any signature over a canonical encoding is). -/
def signNull (key : PublicKey) (inner : NodeRecordInner) :
    PublicKey × NodeRecordInner :=
  (key, inner)

/-- `NodeSignatures` — modelled from the spec: complete and obscured
signatures. -/
structure NodeSignatures where
  complete : PublicKey × NodeRecordInner
  obscured : PublicKey × NodeRecordInner
deriving DecidableEq, Repr

/-- Modelled from the spec: `NodeSignatures::from(cryptde, inner)` signs the
inner as-is (complete) and with `node_addr_opt` forced to `None` (obscured). -/
def NodeSignatures.fromInner (key : PublicKey) (inner : NodeRecordInner) :
    NodeSignatures :=
  { complete := signNull key inner
    obscured := signNull key { inner with node_addr_opt := Option.none } }

/-- `GossipNodeRecord` — modelled from the spec: inner plus signatures. -/
structure GossipNodeRecord where
  inner : NodeRecordInner
  signatures : NodeSignatures
deriving DecidableEq, Repr

/-- Modelled from the spec: `verify(inner, signatures)` — both signatures
must be the ones `CryptDENull::from(inner.public_key)` would produce over the
record's (final) inner. -/
def verifySignatures (inner : NodeRecordInner) (signatures : NodeSignatures) :
    Bool :=
  decide (signatures = NodeSignatures.fromInner inner.public_key inner)

/-- `Gossip` — ordered list of `GossipNodeRecord`. -/
structure Gossip where
  node_records : List GossipNodeRecord
deriving DecidableEq, Repr

/-- The mutation performed for one `connection_pairs` entry in
`GossipBuilder::build` (`src/multinode_integration_tests/src/gossip_builder.rs`
lines 100–111): find the first record whose key is `from_key` and push
`to_key` onto its neighbors; `none` embeds the `panic!` when no record
matches. -/
def pushNeighbor (records : List GossipNodeRecord) (from_key to_key : PublicKey) :
    Option (List GossipNodeRecord) :=
  match records with
  | [] => Option.none
  | r :: rest =>
      if r.inner.public_key = from_key then
        some ({ r with inner :=
            { r.inner with neighbors := r.inner.neighbors ++ [to_key] } } :: rest)
      else
        (pushNeighbor rest from_key to_key).map (r :: ·)

/-- `GossipBuilder::build`
(`src/multinode_integration_tests/src/gossip_builder.rs` lines 86–113):
sign every collected inner record first (each `GossipBuilderNodeInfo`'s
cryptde is `CryptDENull::from` of that record's own public key, for
`add_node`, `add_gnr` and `add_fictional_node` alike), THEN apply the
connection pairs, mutating the already-signed records' neighbor lists.
`none` embeds the panic on an unknown `from_key`. -/
def GossipBuilder.build (node_info : List NodeRecordInner)
    (connection_pairs : List (PublicKey × PublicKey)) : Option Gossip :=
  let signed : List GossipNodeRecord :=
    node_info.map fun inner =>
      { inner := inner
        signatures := NodeSignatures.fromInner inner.public_key inner }
  (connection_pairs.foldlM
    (fun records pair => pushNeighbor records pair.1 pair.2) signed).map
    Gossip.mk

/-! ## Shared concrete inputs for witnesses and counterexamples -/

/-- An example stream key. -/
def exKey : StreamKey := [1, 2, 3]

/-- An example route. -/
def exRoute : Route := ⟨[[10, 11], [12]]⟩

/-- An example wallet. -/
def exWallet : Wallet := ⟨"consuming"⟩

/-- A stream context with a consuming wallet and a usable destination key. -/
def exContext : StreamContext := ⟨exRoute, [4, 5], some exWallet⟩

/-- A stream context without a consuming wallet. -/
def exContextFree : StreamContext := ⟨exRoute, [4, 5], Option.none⟩

/-- A stream context whose destination key is empty, so
`IncipientCoresPackage::new` fails on it. -/
def exContextEmptyKey : StreamContext := ⟨exRoute, [], some exWallet⟩

/-- A map holding `exContext` under `exKey`. -/
def exContexts : StreamContexts :=
  StreamContexts.empty.insert exKey exContext

/-- A map holding `exContextFree` under `exKey`. -/
def exContextsFree : StreamContexts :=
  StreamContexts.empty.insert exKey exContextFree

/-- A map holding `exContextEmptyKey` under `exKey`. -/
def exContextsEmptyKey : StreamContexts :=
  StreamContexts.empty.insert exKey exContextEmptyKey

/-- An example inbound response on `exKey` with `last_data = false`. -/
def exInbound : InboundServerData :=
  { stream_key := exKey
    last_data := false
    sequence_number := 1234
    source := "1.2.3.4:5678"
    data := [65, 66, 67] }

/-- An example inbound response on `exKey` with `last_data = true`. -/
def exInboundLast : InboundServerData :=
  { exInbound with last_data := true, sequence_number := 1235 }

/-! ## Theorems -/

/-- Whether the source's `latest_stream_context` would be built from a given
package and its decoded payload. -/
def latestContextOf (msg : ExpiredCoresPackage)
    (payload : ClientRequestPayload) : StreamContext :=
  { return_route := msg.remaining_route
    payload_destination_key := payload.originator_public_key
    consuming_wallet := msg.consuming_wallet }

/-- The string `sub` occurs contiguously inside `s`. -/
def containsSubstr (s sub : String) : Prop :=
  ∃ l r, s.data = l ++ sub.data ++ r

/-- C9: `NeighborhoodConfig::is_decentralized` returns `true` iff the
neighbor list is non-empty, the local IP differs from the sentinel
255.255.255.255, and the clandestine port list is non-empty; equivalently it
returns `false` exactly when one of the three conditions fails. -/
theorem is_decentralized_iff (c : NeighborhoodConfig) :
    c.is_decentralized = true ↔
      c.neighbor_configs ≠ [] ∧ c.local_ip_addr ≠ sentinel_ip_addr ∧
        c.clandestine_port_list ≠ [] := by
  simp [NeighborhoodConfig.is_decentralized, List.isEmpty_iff, and_assoc]

/-- C6: an `InboundServerData` whose stream key has no stored context
produces exactly one ERROR log line — the "Received unsolicited N-byte
response from X, seq S: ignoring" message with N the data length, X the
source and S the sequence number — sends nothing to Hopper, Accountant or
the stream handler pool, and leaves the `stream_contexts` map unchanged;
the handler (a total function, so it cannot panic) behaves this way for
every message, in particular when `last_data` is `true`. -/
theorem inbound_unknown_key_ignored (s : StreamContexts)
    (msg : InboundServerData) (h : s msg.stream_key = Option.none) :
    handleInboundServerData s msg =
      (s, { logs := [(LogLevel.error,
              unsolicitedMsg msg.data.length msg.source msg.sequence_number)]
            hopper := []
            accountant := []
            process_package := [] }) := by
  simp [handleInboundServerData, h, ProxyClientOutput.none]

/-- Witness for `inbound_unknown_key_ignored`: a concrete unknown-key message
with `last_data = true` on the empty map. -/
theorem inbound_unknown_key_ignored_witness :
    StreamContexts.empty exInboundLast.stream_key = Option.none ∧
      handleInboundServerData StreamContexts.empty exInboundLast =
        (StreamContexts.empty,
          ⟨[(LogLevel.error,
              unsolicitedMsg exInboundLast.data.length exInboundLast.source
                exInboundLast.sequence_number)], [], [], []⟩) :=
  ⟨rfl, inbound_unknown_key_ignored StreamContexts.empty exInboundLast rfl⟩

/-- An expired package whose payload fails to decode. -/
def exExpiredBad : ExpiredCoresPackage :=
  { consuming_wallet := some exWallet
    remaining_route := exRoute
    payload := Except.error "Decryption error: InvalidKey"
    payload_data := [105, 110] }

/-- C7: an `ExpiredCoresPackage` whose payload cannot be decoded as a
`ClientRequestPayload` yields exactly one ERROR log line — whose message
contains both "Error (" and "interpreting payload" — no Hopper or Accountant
sends, no `process_package` call, and no change to the `stream_contexts`
map; the handler is a total function, so it cannot panic. -/
theorem expired_decode_error_dropped (s : StreamContexts)
    (msg : ExpiredCoresPackage) (e : String)
    (h : msg.payload = Except.error e) :
    handleExpiredCoresPackage s msg =
      (s, ⟨[(LogLevel.error, errorInterpretingMsg e msg.payload_data)],
        [], [], []⟩) ∧
    containsSubstr (errorInterpretingMsg e msg.payload_data) "Error (" ∧
    containsSubstr (errorInterpretingMsg e msg.payload_data)
      "interpreting payload" := by
  have hdata : (errorInterpretingMsg e msg.payload_data).data =
      "Error ('".data ++ (e.data
        ++ ("') interpreting payload for transmission: ".data
          ++ (rustDebugBytes msg.payload_data).data)) := by
    simp [errorInterpretingMsg, String.data_append]
  refine ⟨by simp [handleExpiredCoresPackage, h, ProxyClientOutput.none],
    ?_, ?_⟩
  · refine ⟨[], "'".data ++ (e.data
      ++ ("') interpreting payload for transmission: ".data
        ++ (rustDebugBytes msg.payload_data).data)), ?_⟩
    have hlit : "Error ('".data = "Error (".data ++ "'".data := by decide
    simp [hdata, hlit, List.append_assoc]
  · refine ⟨"Error ('".data ++ e.data ++ "') ".data,
      " for transmission: ".data ++ (rustDebugBytes msg.payload_data).data, ?_⟩
    have hlit : "') interpreting payload for transmission: ".data =
        "') ".data ++ "interpreting payload".data
          ++ " for transmission: ".data := by decide
    simp [hdata, hlit, List.append_assoc]

/-- Witness for `expired_decode_error_dropped`: a concrete undecodable
package on the empty map. -/
theorem expired_decode_error_dropped_witness :
    exExpiredBad.payload = Except.error "Decryption error: InvalidKey" ∧
      (handleExpiredCoresPackage StreamContexts.empty exExpiredBad =
        (StreamContexts.empty,
          ⟨[(LogLevel.error, errorInterpretingMsg
              "Decryption error: InvalidKey" exExpiredBad.payload_data)],
            [], [], []⟩) ∧
      containsSubstr (errorInterpretingMsg "Decryption error: InvalidKey"
        exExpiredBad.payload_data) "Error (" ∧
      containsSubstr (errorInterpretingMsg "Decryption error: InvalidKey"
        exExpiredBad.payload_data) "interpreting payload") :=
  ⟨rfl, expired_decode_error_dropped StreamContexts.empty exExpiredBad
    "Decryption error: InvalidKey" rfl⟩

/-- C10: when the stored context's destination key makes
`IncipientCoresPackage::new` fail (empty key), the handler logs the
"Could not create CORES package ... - ignoring" ERROR, sends nothing to
Hopper or Accountant, and leaves the `stream_contexts` map unchanged — the
context is not removed even when `last_data` is `true`. -/
theorem inbound_package_failure_drops (s : StreamContexts)
    (msg : InboundServerData) (sc : StreamContext)
    (h : s msg.stream_key = some sc)
    (hkey : sc.payload_destination_key = []) :
    handleInboundServerData s msg =
      (s, ⟨[(LogLevel.error, couldNotCreateMsg msg.data.length msg.source
            msg.sequence_number "Could not encrypt payload: EmptyKey")],
        [], [], []⟩) := by
  simp [handleInboundServerData, h, send_response_to_hopper,
    IncipientCoresPackage.new, hkey, ProxyClientOutput.none]

/-- Witness for `inbound_package_failure_drops`: empty destination key and
`last_data = true`; the context survives. -/
theorem inbound_package_failure_drops_witness :
    exContextsEmptyKey exInboundLast.stream_key = some exContextEmptyKey ∧
      exContextEmptyKey.payload_destination_key = [] ∧
      handleInboundServerData exContextsEmptyKey exInboundLast =
        (exContextsEmptyKey,
          ⟨[(LogLevel.error, couldNotCreateMsg exInboundLast.data.length
              exInboundLast.source exInboundLast.sequence_number
              "Could not encrypt payload: EmptyKey")], [], [], []⟩) :=
  ⟨by decide, rfl, inbound_package_failure_drops exContextsEmptyKey
    exInboundLast exContextEmptyKey (by decide) rfl⟩

/-- C1 (counterexample): with a stored context whose destination key is
empty, the stream key is known yet NO `IncipientCoresPackage` is sent to
Hopper, so the claim "sends exactly one IncipientCoresPackage" fails as
stated. -/
theorem inbound_empty_destkey_no_package :
    exContextsEmptyKey exInbound.stream_key = some exContextEmptyKey ∧
      (handleInboundServerData exContextsEmptyKey exInbound).2.hopper = [] := by
  decide

/-- C1 (amended): for an `InboundServerData` whose stream key has a stored
context and for which `IncipientCoresPackage::new` succeeds (the stored
destination key is non-empty), exactly one package is sent to Hopper: it is
built with the stored context's `return_route` and
`payload_destination_key`, and its payload is a `ClientResponsePayload`
preserving the message's stream key, data, sequence number and `last_data`
flag unchanged. -/
theorem inbound_known_key_sends_package (s : StreamContexts)
    (msg : InboundServerData) (sc : StreamContext)
    (h : s msg.stream_key = some sc)
    (hkey : sc.payload_destination_key ≠ []) :
    (handleInboundServerData s msg).2.hopper =
      [⟨sc.return_route,
        ⟨msg.stream_key, ⟨msg.data, msg.sequence_number, msg.last_data⟩⟩,
        sc.payload_destination_key⟩] := by
  obtain ⟨a, as, hcons⟩ := List.exists_cons_of_ne_nil hkey
  simp [handleInboundServerData, h, send_response_to_hopper,
    IncipientCoresPackage.new, hcons, report_response_exit_to_accountant]

/-- Witness for `inbound_known_key_sends_package`: a concrete known-key
message with a usable destination key. -/
theorem inbound_known_key_sends_package_witness :
    exContexts exInbound.stream_key = some exContext ∧
      exContext.payload_destination_key ≠ [] ∧
      (handleInboundServerData exContexts exInbound).2.hopper =
        [⟨exContext.return_route,
          ⟨exInbound.stream_key,
            ⟨exInbound.data, exInbound.sequence_number, exInbound.last_data⟩⟩,
          exContext.payload_destination_key⟩] :=
  ⟨by decide, by decide, inbound_known_key_sends_package exContexts exInbound
    exContext (by decide) (by decide)⟩

/-- C5 (counterexample): with a stored context whose destination key is
empty and `last_data = true`, the context is NOT removed, so the claim's
unconditional "if last_data is true, the StreamContext is removed" fails as
stated. -/
theorem inbound_empty_destkey_keeps_context :
    exContextsEmptyKey exInboundLast.stream_key = some exContextEmptyKey ∧
      exInboundLast.last_data = true ∧
      (handleInboundServerData exContextsEmptyKey exInboundLast).1 exKey =
        some exContextEmptyKey := by
  decide

/-- C5 (amended): for an `InboundServerData` whose stream key has a stored
context and whose response package is successfully built and sent to Hopper
(non-empty stored destination key): if `last_data` is `true` the context is
removed, if `last_data` is `false` the whole map is unchanged (so the
context remains present and unchanged), and in either case no other stream
key's entry is affected. -/
theorem inbound_context_lifecycle (s : StreamContexts)
    (msg : InboundServerData) (sc : StreamContext)
    (h : s msg.stream_key = some sc)
    (hkey : sc.payload_destination_key ≠ []) :
    (msg.last_data = true →
      (handleInboundServerData s msg).1 msg.stream_key = Option.none) ∧
    (msg.last_data = false →
      ∀ k, (handleInboundServerData s msg).1 k = s k) ∧
    (∀ k, k ≠ msg.stream_key →
      (handleInboundServerData s msg).1 k = s k) := by
  obtain ⟨a, as, hcons⟩ := List.exists_cons_of_ne_nil hkey
  refine ⟨fun hlast => ?_, fun hlast k => ?_, fun k hk => ?_⟩
  · simp [handleInboundServerData, h, send_response_to_hopper,
      IncipientCoresPackage.new, hcons, hlast, StreamContexts.remove]
  · simp [handleInboundServerData, h, send_response_to_hopper,
      IncipientCoresPackage.new, hcons, hlast]
  · cases hlast : msg.last_data <;>
      simp [handleInboundServerData, h, send_response_to_hopper,
        IncipientCoresPackage.new, hcons, hlast, StreamContexts.remove, hk]

/-- Witness for `inbound_context_lifecycle`: a concrete known-key message
with `last_data = true` and a usable destination key. -/
theorem inbound_context_lifecycle_witness :
    exContexts exInboundLast.stream_key = some exContext ∧
      exContext.payload_destination_key ≠ [] ∧
      ((exInboundLast.last_data = true →
        (handleInboundServerData exContexts exInboundLast).1
          exInboundLast.stream_key = Option.none) ∧
      (exInboundLast.last_data = false →
        ∀ k, (handleInboundServerData exContexts exInboundLast).1 k =
          exContexts k) ∧
      (∀ k, k ≠ exInboundLast.stream_key →
        (handleInboundServerData exContexts exInboundLast).1 k =
          exContexts k)) :=
  ⟨by decide, by decide, inbound_context_lifecycle exContexts exInboundLast
    exContext (by decide) (by decide)⟩

/-- C4: for an `InboundServerData` whose stream key has a stored context and
whose response package is successfully built and sent to Hopper (non-empty
stored destination key): with a stored consuming wallet, exactly one
`ReportExitServiceProvidedMessage` goes to Accountant carrying that wallet,
`payload_size` = the message's data length, `service_rate` =
`TEMPORARY_PER_EXIT_RATE` and `byte_rate` = `TEMPORARY_PER_EXIT_BYTE_RATE`
(and no log is written); without one, nothing goes to Accountant and the
DEBUG "Relayed N-byte response without consuming wallet for free" line is
logged. -/
theorem inbound_accounting (s : StreamContexts) (msg : InboundServerData)
    (sc : StreamContext) (h : s msg.stream_key = some sc)
    (hkey : sc.payload_destination_key ≠ []) :
    (∀ w, sc.consuming_wallet = some w →
      (handleInboundServerData s msg).2.accountant =
        [⟨w, msg.data.length, TEMPORARY_PER_EXIT_RATE,
          TEMPORARY_PER_EXIT_BYTE_RATE⟩] ∧
      (handleInboundServerData s msg).2.logs = []) ∧
    (sc.consuming_wallet = Option.none →
      (handleInboundServerData s msg).2.accountant = [] ∧
      (handleInboundServerData s msg).2.logs =
        [(LogLevel.debug, relayedFreeMsg msg.data.length)]) := by
  obtain ⟨a, as, hcons⟩ := List.exists_cons_of_ne_nil hkey
  constructor
  · intro w hw
    simp [handleInboundServerData, h, send_response_to_hopper,
      IncipientCoresPackage.new, hcons, report_response_exit_to_accountant,
      hw]
  · intro hw
    simp [handleInboundServerData, h, send_response_to_hopper,
      IncipientCoresPackage.new, hcons, report_response_exit_to_accountant,
      hw]

/-- Witness for `inbound_accounting`: a concrete billed response and the
instantiated conclusion. -/
theorem inbound_accounting_witness :
    exContexts exInbound.stream_key = some exContext ∧
      exContext.payload_destination_key ≠ [] ∧
      ((∀ w, exContext.consuming_wallet = some w →
        (handleInboundServerData exContexts exInbound).2.accountant =
          [⟨w, exInbound.data.length, TEMPORARY_PER_EXIT_RATE,
            TEMPORARY_PER_EXIT_BYTE_RATE⟩] ∧
        (handleInboundServerData exContexts exInbound).2.logs = []) ∧
      (exContext.consuming_wallet = Option.none →
        (handleInboundServerData exContexts exInbound).2.accountant = [] ∧
        (handleInboundServerData exContexts exInbound).2.logs =
          [(LogLevel.debug, relayedFreeMsg exInbound.data.length)])) :=
  ⟨by decide, by decide, inbound_accounting exContexts exInbound exContext
    (by decide) (by decide)⟩

/-- The package's payload decodes successfully and carries stream key `k`. -/
def decodesWithKey (k : StreamKey) (msg : ExpiredCoresPackage) : Prop :=
  match msg.payload with
  | Except.ok p => p.stream_key = k
  | Except.error _ => False

instance (k : StreamKey) (msg : ExpiredCoresPackage) :
    Decidable (decodesWithKey k msg) := by
  unfold decodesWithKey
  cases msg.payload <;> exact inferInstance

/-- Every processed package's decoded payload and consuming wallet reach
`StreamHandlerPool::process_package`, in order; undecodable packages
contribute nothing. -/
theorem processExpiredSequence_calls (s : StreamContexts)
    (msgs : List ExpiredCoresPackage) :
    (processExpiredSequence s msgs).2 =
      msgs.filterMap fun m => m.payload.toOption.map fun p =>
        (p, m.consuming_wallet) := by
  induction msgs generalizing s with
  | nil => rfl
  | cons m rest ih =>
      cases hp : m.payload <;>
        simp [processExpiredSequence, handleExpiredCoresPackage, hp,
          ProxyClientOutput.none, ih, Except.toOption]

/-- After a non-empty run of same-key decodable packages, the stored context
is the one built from the last package. -/
theorem processExpiredSequence_latest (s : StreamContexts) (k : StreamKey)
    (msgs : List ExpiredCoresPackage) (mlast : ExpiredCoresPackage)
    (hlast : msgs.getLast? = some mlast)
    (hdec : ∀ m ∈ msgs, decodesWithKey k m) :
    ∃ p, mlast.payload = Except.ok p ∧
      (processExpiredSequence s msgs).1 k =
        some (latestContextOf mlast p) := by
  induction msgs generalizing s with
  | nil => simp at hlast
  | cons m rest ih =>
      have hm : decodesWithKey k m := hdec m (List.mem_cons_self m rest)
      cases hp : m.payload with
      | error e => simp [decodesWithKey, hp] at hm
      | ok p =>
          have hpk : p.stream_key = k := by
            simpa [decodesWithKey, hp] using hm
          cases rest with
          | nil =>
              have hml : m = mlast := by simpa using hlast
              subst hml
              exact ⟨p, hp, by
                simp [processExpiredSequence, handleExpiredCoresPackage, hp,
                  StreamContexts.insert, latestContextOf, hpk]⟩
          | cons m2 rest2 =>
              have hlast' : (m2 :: rest2).getLast? = some mlast := by
                simpa [List.getLast?_cons_cons] using hlast
              have hdec' : ∀ m' ∈ m2 :: rest2, decodesWithKey k m' :=
                fun m' hm' => hdec m' (List.mem_cons_of_mem m hm')
              have step := ih
                (StreamContexts.insert s p.stream_key
                  (latestContextOf m p)) hlast' hdec'
              simpa [processExpiredSequence, handleExpiredCoresPackage, hp,
                latestContextOf] using step

/-- C2: processing a non-empty sequence of `ExpiredCoresPackage`s whose
payloads all decode to `ClientRequestPayload`s with stream key `k` leaves,
under `k`, the `StreamContext` built from the most recently processed
package — its `remaining_route`, `originator_public_key` and
`consuming_wallet` (the newest context overwrites any earlier one) — and
passes each decoded payload with its package's consuming wallet to
`StreamHandlerPool::process_package`, in order. -/
theorem expired_sequence_upserts_latest (s : StreamContexts) (k : StreamKey)
    (msgs : List ExpiredCoresPackage) (mlast : ExpiredCoresPackage)
    (hlast : msgs.getLast? = some mlast)
    (hdec : ∀ m ∈ msgs, decodesWithKey k m) :
    (∃ p, mlast.payload = Except.ok p ∧
      (processExpiredSequence s msgs).1 k =
        some (latestContextOf mlast p)) ∧
    (processExpiredSequence s msgs).2 =
      msgs.filterMap fun m => m.payload.toOption.map fun p =>
        (p, m.consuming_wallet) :=
  ⟨processExpiredSequence_latest s k msgs mlast hlast hdec,
    processExpiredSequence_calls s msgs⟩

/-- An example decoded request payload on `exKey`. -/
def exPayloadA : ClientRequestPayload :=
  { stream_key := exKey
    sequenced_packet := ⟨[1], 0, false⟩
    target_hostname := some "target.hostname.com"
    target_port := 80
    protocol := ProxyProtocol.http
    originator_public_key := [4, 5] }

/-- A second decoded request payload on `exKey` with a different originator
key. -/
def exPayloadB : ClientRequestPayload :=
  { exPayloadA with originator_public_key := [6, 7] }

/-- A first decodable package carrying `exPayloadA`. -/
def exExpiredA : ExpiredCoresPackage :=
  { consuming_wallet := some exWallet
    remaining_route := exRoute
    payload := Except.ok exPayloadA
    payload_data := [] }

/-- A second decodable package carrying `exPayloadB` with a fresh route and
wallet. -/
def exExpiredB : ExpiredCoresPackage :=
  { consuming_wallet := some ⟨"gnimusnoc"⟩
    remaining_route := ⟨[[99]]⟩
    payload := Except.ok exPayloadB
    payload_data := [] }

/-- Witness for `expired_sequence_upserts_latest`: two same-key packages;
the second one's context wins. -/
theorem expired_sequence_upserts_latest_witness :
    [exExpiredA, exExpiredB].getLast? = some exExpiredB ∧
      (∀ m ∈ [exExpiredA, exExpiredB], decodesWithKey exKey m) ∧
      ((∃ p, exExpiredB.payload = Except.ok p ∧
        (processExpiredSequence StreamContexts.empty
          [exExpiredA, exExpiredB]).1 exKey =
          some (latestContextOf exExpiredB p)) ∧
      (processExpiredSequence StreamContexts.empty
          [exExpiredA, exExpiredB]).2 =
        [exExpiredA, exExpiredB].filterMap fun m =>
          m.payload.toOption.map fun p => (p, m.consuming_wallet)) :=
  ⟨rfl, by decide, expired_sequence_upserts_latest StreamContexts.empty exKey
    [exExpiredA, exExpiredB] exExpiredB rfl (by decide)⟩

/-- A record not matched by a `pushNeighbor` pass was already in the input
list unchanged. -/
theorem pushNeighbor_mem (records : List GossipNodeRecord) (f t : PublicKey)
    (records' : List GossipNodeRecord)
    (h : pushNeighbor records f t = some records') (r : GossipNodeRecord)
    (hr : r ∈ records') (hne : r.inner.public_key ≠ f) : r ∈ records := by
  induction records generalizing records' with
  | nil => simp [pushNeighbor] at h
  | cons a rest ih =>
      by_cases ha : a.inner.public_key = f
      · simp only [pushNeighbor, if_pos ha, Option.some.injEq] at h
        subst h
        rcases List.mem_cons.mp hr with hr1 | hr2
        · exact absurd (by simpa [hr1] using ha) hne
        · exact List.mem_cons_of_mem a hr2
      · simp only [pushNeighbor, if_neg ha] at h
        cases hrec : pushNeighbor rest f t with
        | none => simp [hrec] at h
        | some rest' =>
            have h' : a :: rest' = records' := by simpa [hrec] using h
            subst h'
            rcases List.mem_cons.mp hr with hr1 | hr2
            · exact hr1 ▸ List.mem_cons_self a rest
            · exact List.mem_cons_of_mem a (ih rest' hrec hr2)

/-- A record whose key is the from-side of no connection pair passes through
the whole connection fold unchanged. -/
theorem foldl_pushNeighbor_mem (pairs : List (PublicKey × PublicKey))
    (init final : List GossipNodeRecord)
    (h : pairs.foldlM
      (fun records pair => pushNeighbor records pair.1 pair.2) init =
        some final)
    (r : GossipNodeRecord) (hr : r ∈ final)
    (hne : ∀ pair ∈ pairs, r.inner.public_key ≠ pair.1) : r ∈ init := by
  induction pairs generalizing init with
  | nil =>
      have : init = final := by simpa using h
      exact this ▸ hr
  | cons p ps ih =>
      rw [List.foldlM_cons] at h
      cases hp : pushNeighbor init p.1 p.2 with
      | none => simp [hp] at h
      | some mid =>
          have hrest : ps.foldlM
              (fun records pair => pushNeighbor records pair.1 pair.2) mid =
                some final := by
            simpa [hp] using h
          have hmid : r ∈ mid :=
            ih mid hrest
              (fun pair hpair => hne pair (List.mem_cons_of_mem p hpair))
          exact pushNeighbor_mem init p.1 p.2 mid hp r hmid
            (hne p (List.mem_cons_self p ps))

/-- A freshly signed record verifies against its own inner. -/
theorem verify_fromInner (inner : NodeRecordInner) :
    verifySignatures inner
      (NodeSignatures.fromInner inner.public_key inner) = true := by
  simp [verifySignatures]

/-- A minimal inner record with key `[1]`. -/
def cxInnerA : NodeRecordInner :=
  { public_key := [1]
    node_addr_opt := Option.none
    is_bootstrap_node := false
    earning_wallet := ⟨"earnA"⟩
    consuming_wallet := Option.none
    neighbors := []
    version := 0 }

/-- A minimal inner record with key `[2]`. -/
def cxInnerB : NodeRecordInner :=
  { cxInnerA with public_key := [2], earning_wallet := ⟨"earnB"⟩ }

/-- C3 (counterexample): building a gossip from nodes `[1]` and `[2]` with
`add_connection([1], [2])` yields a first record whose signatures no longer
verify against its final inner (the neighbor was pushed AFTER signing), so
the claim fails as stated. -/
theorem gossip_build_connection_breaks_signature :
    (GossipBuilder.build [cxInnerA, cxInnerB] [([1], [2])]).map
        (fun g => g.node_records.map fun r =>
          verifySignatures r.inner r.signatures) =
      some [false, true] := by
  decide

/-- C3 (amended): in every gossip produced by `GossipBuilder::build`, every
record whose public key is not the from-side of any `add_connection` pair
(so its neighbor list was not mutated after signing) has signatures that
verify against its final inner; records extended by `add_connection` carry
signatures over their pre-connection inner instead. -/
theorem gossip_build_unconnected_verify (node_info : List NodeRecordInner)
    (pairs : List (PublicKey × PublicKey)) (g : Gossip)
    (hg : GossipBuilder.build node_info pairs = some g)
    (r : GossipNodeRecord) (hr : r ∈ g.node_records)
    (hfrom : ∀ pair ∈ pairs, r.inner.public_key ≠ pair.1) :
    verifySignatures r.inner r.signatures = true := by
  simp only [GossipBuilder.build] at hg
  cases hf : (pairs.foldlM
      (fun records pair => pushNeighbor records pair.1 pair.2)
      (node_info.map fun inner =>
        { inner := inner
          signatures :=
            NodeSignatures.fromInner inner.public_key inner })) with
  | none => rw [hf] at hg; simp at hg
  | some final =>
      rw [hf] at hg
      have hgf : g.node_records = final := by
        cases g
        simpa using congrArg Gossip.node_records
          (Option.some.inj hg).symm
      have hrf : r ∈ final := hgf ▸ hr
      have hinit := foldl_pushNeighbor_mem pairs _ final hf r hrf hfrom
      obtain ⟨inner, _, hr_eq⟩ := List.mem_map.mp hinit
      rw [← hr_eq]
      exact verify_fromInner inner

/-- The signed record for `cxInnerA`. -/
def cxRecordA : GossipNodeRecord :=
  ⟨cxInnerA, NodeSignatures.fromInner [1] cxInnerA⟩

/-- Witness for `gossip_build_unconnected_verify`: one node, no connections;
its record verifies. -/
theorem gossip_build_unconnected_verify_witness :
    GossipBuilder.build [cxInnerA] [] = some ⟨[cxRecordA]⟩ ∧
      cxRecordA ∈ (Gossip.mk [cxRecordA]).node_records ∧
      (∀ pair ∈ ([] : List (PublicKey × PublicKey)),
        cxRecordA.inner.public_key ≠ pair.1) ∧
      verifySignatures cxRecordA.inner cxRecordA.signatures = true :=
  ⟨by decide, by decide, by decide,
    gossip_build_unconnected_verify [cxInnerA] [] ⟨[cxRecordA]⟩ (by decide)
      cxRecordA (by decide) (by decide)⟩

/-- The empty `receivable` table with no injected SQL errors. -/
def emptyReceivableDb : ReceivableDb :=
  ⟨fun _ => Option.none, Option.none, Option.none⟩

/-- C8 (counterexample): on the empty table, `more_money_receivable` with
`a = 2 ^ 63` stores balance `-(2 ^ 63)` — the Rust `amount as i64` cast
wraps — not `a`, so the claim's "balance equal to a" fails as stated. -/
theorem receivable_cast_counterexample :
    (more_money_receivable emptyReceivableDb exWallet (2 ^ 63) 0).map
        (fun db' => (account_status db' exWallet).map
          ReceivableAccount.balance) =
      Except.ok (some (-(2 ^ 63) : Int)) ∧
    (-(2 ^ 63) : Int) ≠ (2 ^ 63 : Int) := by
  constructor
  · rfl
  · decide

/-- C8 (amended): for `a < 2 ^ 63` (so the `amount as i64` cast is the
identity; larger `u64` amounts are added as their wrapped negative value) on
a database whose two statements raise no error, `more_money_receivable`
leaves the store with balance = previous balance + `a` when a row existed
(timestamp untouched) and balance = `a` with the fresh timestamp `now` when
none existed, as `account_status` reports; and any SQL error — from the
update, or from the insert attempted when no row matched — panics with a
message "Database is corrupt: " followed by the error. -/
theorem more_money_receivable_spec (db db2 : ReceivableDb) (w : Wallet)
    (a : Nat) (now : Int) (hup : db.update_error = Option.none)
    (hins : db.insert_error = Option.none) (ha : a < 2 ^ 63) :
    (∀ b t, db.rows w.address = some (b, t) →
      ∃ db', more_money_receivable db w a now = Except.ok db' ∧
        account_status db' w = some ⟨w, b + (a : Int), t⟩) ∧
    (db.rows w.address = Option.none →
      ∃ db', more_money_receivable db w a now = Except.ok db' ∧
        account_status db' w = some ⟨w, (a : Int), now⟩) ∧
    (∀ e, db2.update_error = some e →
      more_money_receivable db2 w a now =
        Except.error ("Database is corrupt: " ++ e)) ∧
    (∀ e, db2.update_error = Option.none → db2.insert_error = some e →
      db2.rows w.address = Option.none →
      more_money_receivable db2 w a now =
        Except.error ("Database is corrupt: " ++ e)) := by
  have hcast : i64_of_u64 a = (a : Int) := by
    unfold i64_of_u64
    rw [if_pos ha]
  refine ⟨fun b t hrow => ?_, fun hrow => ?_, fun e he => ?_,
    fun e he1 he2 hrow => ?_⟩
  · refine ⟨{ db with rows := fun x =>
        if x = w.address then some (b + i64_of_u64 a, t) else db.rows x },
      ?_, ?_⟩
    · simp [more_money_receivable, try_update, hup, hrow]
    · simp [account_status, hcast]
  · refine ⟨{ db with rows := fun x =>
        if x = w.address then some (i64_of_u64 a, now) else db.rows x },
      ?_, ?_⟩
    · simp [more_money_receivable, try_update, try_insert, hup, hins, hrow]
    · simp [account_status, hcast]
  · simp [more_money_receivable, try_update, he]
  · simp [more_money_receivable, try_update, try_insert, he1, he2, hrow]

/-- A table holding a row for `exWallet` and raising no errors. -/
def exDbWithRow : ReceivableDb :=
  ⟨fun a => if a = "consuming" then some (100, 5) else Option.none,
    Option.none, Option.none⟩

/-- A table whose update statement raises a SQL error. -/
def exDbUpdateErr : ReceivableDb :=
  ⟨fun _ => Option.none, some "disk I/O error", Option.none⟩

/-- Witness for `more_money_receivable_spec`: a concrete existing-row
increment and a concrete erroring database. -/
theorem more_money_receivable_spec_witness :
    exDbWithRow.update_error = Option.none ∧
      exDbWithRow.insert_error = Option.none ∧ 1234 < 2 ^ 63 ∧
      ((∀ b t, exDbWithRow.rows exWallet.address = some (b, t) →
        ∃ db', more_money_receivable exDbWithRow exWallet 1234 7 =
            Except.ok db' ∧
          account_status db' exWallet = some ⟨exWallet, b + (1234 : Int), t⟩) ∧
      (exDbWithRow.rows exWallet.address = Option.none →
        ∃ db', more_money_receivable exDbWithRow exWallet 1234 7 =
            Except.ok db' ∧
          account_status db' exWallet = some ⟨exWallet, (1234 : Int), 7⟩) ∧
      (∀ e, exDbUpdateErr.update_error = some e →
        more_money_receivable exDbUpdateErr exWallet 1234 7 =
          Except.error ("Database is corrupt: " ++ e)) ∧
      (∀ e, exDbUpdateErr.update_error = Option.none →
        exDbUpdateErr.insert_error = some e →
        exDbUpdateErr.rows exWallet.address = Option.none →
        more_money_receivable exDbUpdateErr exWallet 1234 7 =
          Except.error ("Database is corrupt: " ++ e))) :=
  ⟨rfl, rfl, by decide,
    more_money_receivable_spec exDbWithRow exDbUpdateErr exWallet 1234 7
      rfl rfl (by decide)⟩

end Substratum
